import Mathlib

/-!
Verification of the cv-analyzer evaluation pipeline.

This file gives a shallow embedding, in Lean 4, of the core algorithms of the
cv-analyzer repository and proves (or refutes) the specified properties about
them:

* `src/services/pdf.service.ts` — sentence splitting and sentence-bounded
  chunking (`splitIntoSentences`, `chunkText`);
* `src/services/ai.service.ts` — the two vector-store query modes
  (`queryVectorDBWithCosineSimilarity`, `queryVectorDB`) and LLM response
  parsing (`parseLLMResponse`);
* `src/jobs/evaluation.worker.ts` — the per-submission evaluation pipeline
  (CV scoring, project relevance gating, result assembly);
* `src/services/job-ingestion.service.ts` and
  `src/jobs/job-vacancy-ingestion.worker.ts` — the vacancy ingestion
  orchestration and its status state machine;
* `src/api/v1/evaluate/handlers/create.handler.ts` — submission creation
  validation.

Modelling conventions: JavaScript numbers are modelled as rationals (`ℚ`);
a JS value that may be `undefined`/non-numeric and would turn arithmetic into
`NaN` is modelled as `Option ℚ` with `none` propagating through the helper
operations `nanMul`/`nanAdd`/`nanDiv`.  Fallible external calls (Mongo
lookups, PDF extraction, LLM calls, the vector store) are modelled as
environment fields of type `Option`/`Except String` holding their outcome;
the control flow around them is translated from the source.  Strings are
ASCII-oriented: a JS string's `.length` (UTF-16 units) is modelled as the
character count of the corresponding `List Char`.
-/

/-! ## Text chunker (src/services/pdf.service.ts) -/

/-- Character class of the JS regex `\s` as it occurs in the inputs handled
here: space, tab, newline, carriage return, vertical tab, form feed. -/
def jsIsWhitespace (c : Char) : Bool :=
  c = ' ' || c = '\t' || c = '\n' || c = '\r' || c = '\x0b' || c = '\x0c'

/-- Embedding of `text.replace(/\s+/g, " ")`: every maximal run of whitespace
characters is replaced by a single space.  The Boolean argument records
whether the previous character was part of a whitespace run. -/
def collapseWS : List Char → Bool → List Char
  | [], _ => []
  | c :: cs, prevWS =>
      if jsIsWhitespace c then
        if prevWS then collapseWS cs true else ' ' :: collapseWS cs true
      else c :: collapseWS cs false

/-- Embedding of `String.prototype.trim()` on a character list. -/
def trimChars (l : List Char) : List Char :=
  ((l.dropWhile jsIsWhitespace).reverse.dropWhile jsIsWhitespace).reverse

/-- The sentence-terminating punctuation class `[.!?]` of
`splitIntoSentences`. -/
def isSentencePunct (c : Char) : Bool :=
  c = '.' || c = '!' || c = '?'

/-- Scanner for the regex loop of `splitIntoSentences` (pdf.service.ts).
The regex `[.!?]+(?=\s|$)` is matched by walking the normalized text once:
`buf` holds the characters of the current sentence so far (reversed), `run`
holds a pending maximal punctuation run (reversed), and `acc` holds completed
sentences (reversed).  A punctuation run followed by a space or the end of
input closes a sentence (the trailing trim mirrors
`normalized.substring(lastIndex, sentenceEnd).trim()`); a run followed by any
other character is absorbed into the sentence, as the regex lookahead fails
at every position of the run. -/
def splitSentencesScan : List Char → List Char → List Char → List (List Char) →
    List (List Char)
  | [], buf, [], acc =>
      -- end of input with no pending run: push the remaining text if nonempty
      let remaining := trimChars buf.reverse
      (if remaining.isEmpty then acc else remaining :: acc).reverse
  | [], buf, run, acc =>
      -- a punctuation run at the end of the string matches the regex
      let sentence := trimChars (buf.reverse ++ run.reverse)
      (if sentence.isEmpty then acc else sentence :: acc).reverse
  | c :: cs, buf, [], acc =>
      if isSentencePunct c then splitSentencesScan cs buf [c] acc
      else splitSentencesScan cs (c :: buf) [] acc
  | c :: cs, buf, run, acc =>
      if isSentencePunct c then splitSentencesScan cs buf (c :: run) acc
      else if c = ' ' then
        -- lookahead succeeds: close the sentence and skip the space
        let sentence := trimChars (buf.reverse ++ run.reverse)
        splitSentencesScan cs [] [] (if sentence.isEmpty then acc else sentence :: acc)
      else
        -- lookahead fails: the run belongs to the sentence body
        splitSentencesScan cs (c :: (run ++ buf)) [] acc

/-- Embedding of `splitIntoSentences` (pdf.service.ts): normalize whitespace,
split at sentence-ending punctuation followed by a space or the end of the
string, keep trailing text as a final sentence, and fall back to the whole
normalized text when no sentence was found. -/
def splitIntoSentences (text : List Char) : List (List Char) :=
  let normalized := trimChars (collapseWS text false)
  if normalized.isEmpty then []
  else
    let sentences := splitSentencesScan normalized [] [] []
    if sentences.isEmpty then [normalized] else sentences

/-- Join a list of sentences with single spaces, as `sentences.join(" ")`. -/
def joinSp (l : List (List Char)) : List Char :=
  (l.intersperse [' ']).flatten

/-- Recalculation of `currentLength` after reseeding a chunk with overlap
sentences: `currentChunk.reduce((sum, s, idx) => sum + s.length + (idx > 0 ?
1 : 0), 0)`. -/
def recalcOverlapLen : List (List Char) → Nat
  | [] => 0
  | s :: rest => rest.foldl (fun sum t => sum + t.length + 1) s.length

/-- One-iteration-per-fuel-unit embedding of the `while (sentenceIndex <
sentences.length)` accumulation loop of `chunkText` (pdf.service.ts).  State:
sentence index `i`, finished `chunks`, the `cur`rent chunk's sentences, and
`curLen` (`currentLength`).  `none` means the fuel ran out before the loop
condition became false; `chunkText` supplies fuel `sentences.length`, which
theorem `chunkLoop_terminates` shows always suffices. -/
def chunkLoop (sentences : List (List Char)) (chunkSize overlap : Nat) :
    Nat → Nat → List (List Char) → List (List Char) → Nat →
    Option (List (List Char) × List (List Char) × Nat)
  | 0, i, chunks, cur, curLen =>
      if i < sentences.length then none else some (chunks, cur, curLen)
  | fuel + 1, i, chunks, cur, curLen =>
      if h : i < sentences.length then
        let s := sentences.get ⟨i, h⟩
        let sentenceLength := s.length + (if 0 < cur.length then 1 else 0)
        if chunkSize < curLen + sentenceLength ∧ 0 < cur.length then
          -- finalize the current chunk
          let chunks' := chunks ++ [trimChars (joinSp cur)]
          if 0 < overlap ∧ 0 < cur.length then
            -- reseed with the last `overlap` sentences
            -- (`Math.max(0, len - overlap)` is Nat truncated subtraction)
            let cur' := cur.drop (cur.length - overlap)
            chunkLoop sentences chunkSize overlap fuel (i + 1) chunks'
              (cur' ++ [s]) (recalcOverlapLen cur' + sentenceLength)
          else
            chunkLoop sentences chunkSize overlap fuel (i + 1) chunks'
              [s] sentenceLength
        else
          chunkLoop sentences chunkSize overlap fuel (i + 1) chunks
            (cur ++ [s]) (curLen + sentenceLength)
      else some (chunks, cur, curLen)

/-- Final cleanup of `chunkText`: drop empty chunks and append a period to any
chunk that does not already end in sentence punctuation. -/
def finalizeChunks (chunks : List (List Char)) : List (List Char) :=
  (chunks.filter (fun c => 0 < c.length)).map (fun c =>
    let t := trimChars c
    match t.getLast? with
    | some last => if isSentencePunct last then t else t ++ ['.']
    | none => t ++ ['.'])

/-- Embedding of `chunkText(text, chunkSize = 1000, overlap = 2)`
(pdf.service.ts).  The result is `none` only if the loop fuel
(`sentences.length`) were to run out, which `chunkText_terminates` rules
out. -/
def chunkText (text : String) (chunkSize : Nat := 1000) (overlap : Nat := 2) :
    Option (List String) :=
  if (trimChars text.data).isEmpty then some []
  else
    let sentences := splitIntoSentences text.data
    if sentences.isEmpty then some [text]
    else
      let totalLength := sentences.foldl (fun sum s => sum + s.length + 1) 0 - 1
      if totalLength ≤ chunkSize then
        some [String.mk (trimChars (joinSp sentences))]
      else
        match chunkLoop sentences chunkSize overlap sentences.length 0 [] [] 0 with
        | none => none
        | some (chunks, cur, _) =>
            let chunks' := if 0 < cur.length then chunks ++ [trimChars (joinSp cur)] else chunks
            some ((finalizeChunks chunks').map String.mk)

/-- A string ends in the sentence punctuation required of every chunk. -/
def endsWithSentencePunct (s : String) : Bool :=
  match s.data.getLast? with
  | some c => isSentencePunct c
  | none => false

/-! ## Chunker theorems (claims C9, C10) -/

/-- The accumulation loop of `chunkText` advances the sentence index by
exactly one per iteration, so fuel covering the remaining sentences always
suffices: the loop cannot run forever. -/
theorem chunkLoop_isSome (sentences : List (List Char)) (chunkSize overlap : Nat) :
    ∀ fuel i chunks cur curLen, sentences.length ≤ i + fuel →
      (chunkLoop sentences chunkSize overlap fuel i chunks cur curLen).isSome := by
  intro fuel
  induction fuel with
  | zero =>
      intro i chunks cur curLen hle
      rw [chunkLoop]
      have : ¬ i < sentences.length := by omega
      simp [this]
  | succ n ih =>
      intro i chunks cur curLen hle
      rw [chunkLoop]
      split
      · dsimp only
        repeat' split
        all_goals exact ih (i + 1) _ _ _ (by omega)
      · simp

/-- C10: `chunkText` terminates on every input text, every target size and
every overlap: in the accumulation loop the sentence index strictly
increases on every iteration — also in iterations that close a chunk and
reseed it with overlap sentences — so the loop performs at most one
iteration per sentence and fuel `sentences.length` never runs out. -/
theorem chunkText_terminates (text : String) (chunkSize overlap : Nat) :
    (chunkText text chunkSize overlap).isSome := by
  rw [chunkText]
  split
  · simp
  · simp only
    split
    · simp
    · split
      · simp
      · have h := chunkLoop_isSome (splitIntoSentences text.data) chunkSize overlap
          (splitIntoSentences text.data).length 0 [] [] 0 (by omega)
        obtain ⟨v, hv⟩ := Option.isSome_iff_exists.mp h
        rw [hv]
        simp

/-- C9: the code contradicts its own documentation.  `chunkText`'s doc
comment promises that every returned chunk ends with sentence punctuation
(a period being appended if missing), but the single-chunk fast path — taken
whenever all sentences fit within the target size — returns the joined
sentences verbatim, bypassing the punctuation-fixing map: on the input
"hello world" (target size 1000, overlap 2) the single returned chunk does
not end in a period, an exclamation mark or a question mark. -/
theorem chunkText_single_chunk_missing_period :
    chunkText "hello world" 1000 2 = some ["hello world"] ∧
      endsWithSentencePunct "hello world" = false := by
  constructor
  · decide
  · decide

/-! ## Vector store queries (src/services/ai.service.ts)

The ChromaDB client is an external collaborator.  A call
`collection.query(queryTexts, nResults, where)` for one partition either
throws (caught and logged by the source, the partition being skipped) or
returns parallel arrays of documents, metadata and distances; both query
modes are therefore modelled as functions of the per-partition outcomes:
`none` for a partition whose query threw (or returned no document array),
`some docs` for a successful partition, where each stored chunk carries the
text, the optional metadata record and the store's reported distance.  The
metadata type is a parameter `μ`. -/

/-- One row of a successful per-partition ChromaDB query: document text,
optional metadata, reported distance. -/
structure StoredChunk (μ : Type) where
  text : String
  metadata : Option μ
  distance : ℚ
deriving DecidableEq

/-- Return type of `queryVectorDBWithCosineSimilarity`. -/
structure VectorDBResultWithSimilarity (μ : Type) where
  text : String
  metadata : Option μ
  similarity : ℚ
deriving DecidableEq

/-- Return type of `queryVectorDB`. -/
structure VectorDBResult (μ : Type) where
  text : String
  metadata : Option μ
deriving DecidableEq

/-- The ordering used by `allResults.sort((a, b) => b.similarity -
a.similarity)`: descending similarity. -/
def simDescending {μ : Type} (a b : VectorDBResultWithSimilarity μ) : Prop :=
  b.similarity ≤ a.similarity

instance {μ : Type} : DecidableRel (@simDescending μ) :=
  fun a b => inferInstanceAs (Decidable (b.similarity ≤ a.similarity))

/-- Conversion applied to every retrieved row:
`similarity = 1 - distance`. -/
def toSimilarityResult {μ : Type} (d : StoredChunk μ) : VectorDBResultWithSimilarity μ :=
  ⟨d.text, d.metadata, 1 - d.distance⟩

/-- Projection applied by `queryVectorDB` to every retrieved row. -/
def toVectorDBResult {μ : Type} (d : StoredChunk μ) : VectorDBResult μ :=
  ⟨d.text, d.metadata⟩

/-- Embedding of `queryVectorDBWithCosineSimilarity` (ai.service.ts): for
each partition in order, a failed query is skipped while a successful one
contributes every row converted via `similarity = 1 - distance`; the merged
list is then sorted by descending similarity and truncated to the global
top `topK`.  JavaScript's `Array.prototype.sort` is stable and the result of
a stable sort is unique, so the sort is modelled by the stable
`List.insertionSort`. -/
def queryVectorDBWithCosineSimilarity {μ : Type}
    (partitionResults : List (Option (List (StoredChunk μ)))) (topK : Nat) :
    List (VectorDBResultWithSimilarity μ) :=
  let allResults := partitionResults.foldl (fun acc res =>
    match res with
    | none => acc
    | some docs => acc ++ docs.map toSimilarityResult) []
  (List.insertionSort simDescending allResults).take topK

/-- Embedding of `queryVectorDB` (ai.service.ts): for each partition in
order, a failed query is skipped while a successful one contributes every
row projected to text and metadata.  The merged list is returned as is —
the source contains no sort and no truncation after the merge, and `topK`
is only forwarded to the per-partition queries (already reflected in
`partitionResults`). -/
def queryVectorDB {μ : Type}
    (partitionResults : List (Option (List (StoredChunk μ)))) (topK : Nat) :
    List (VectorDBResult μ) :=
  let allResults := partitionResults.foldl (fun acc res =>
    match res with
    | none => acc
    | some docs => acc ++ docs.map toVectorDBResult) []
  allResults

/-- All rows returned by the successful per-partition queries, in partition
order. -/
def allStoredChunks {μ : Type} (partitionResults : List (Option (List (StoredChunk μ)))) :
    List (StoredChunk μ) :=
  (partitionResults.filterMap id).flatten

/-- The merging fold of both query modes concatenates the converted rows of
the successful partitions in order. -/
theorem foldl_partition_append {μ α : Type} (f : StoredChunk μ → α) :
    ∀ (prs : List (Option (List (StoredChunk μ)))) (acc : List α),
      prs.foldl (fun acc res =>
        match res with
        | none => acc
        | some docs => acc ++ docs.map f) acc = acc ++ (allStoredChunks prs).map f := by
  intro prs
  induction prs with
  | nil => intro acc; simp [allStoredChunks]
  | cons head tail ih =>
      intro acc
      cases head with
      | none => simp [allStoredChunks, List.filterMap_cons] at ih ⊢; rw [ih]
      | some docs =>
          simp only [allStoredChunks, List.filterMap_cons, List.foldl_cons, List.flatten] at ih ⊢
          rw [ih]
          simp [allStoredChunks]

/-- C4: every entry returned by the similarity-scored query mode is a
retrieved row with `similarity = 1 - distance`; the output is sorted by
descending similarity; its length is at most `topK` (a global top-k across
all partitions); and when the partitions hold at most `topK` rows in total,
the output is exactly (a permutation of) all available rows — fewer than
`topK` matches are returned in full, without error. -/
theorem queryVectorDBWithCosineSimilarity_spec {μ : Type}
    (prs : List (Option (List (StoredChunk μ)))) (topK : Nat) :
    (∀ r ∈ queryVectorDBWithCosineSimilarity prs topK,
        ∃ d ∈ allStoredChunks prs, r = toSimilarityResult d)
    ∧ List.Sorted simDescending (queryVectorDBWithCosineSimilarity prs topK)
    ∧ (queryVectorDBWithCosineSimilarity prs topK).length ≤ topK
    ∧ ((allStoredChunks prs).length ≤ topK →
        (queryVectorDBWithCosineSimilarity prs topK).Perm
          ((allStoredChunks prs).map toSimilarityResult)) := by
  haveI : IsTotal (VectorDBResultWithSimilarity μ) simDescending :=
    ⟨fun a b => le_total b.similarity a.similarity⟩
  haveI : IsTrans (VectorDBResultWithSimilarity μ) simDescending :=
    ⟨fun _ _ _ hab hbc => le_trans hbc hab⟩
  have hfold : queryVectorDBWithCosineSimilarity prs topK =
      (List.insertionSort simDescending
        ((allStoredChunks prs).map toSimilarityResult)).take topK := by
    simp only [queryVectorDBWithCosineSimilarity]
    rw [foldl_partition_append toSimilarityResult prs []]
    rfl
  refine ⟨?_, ?_, ?_, ?_⟩
  · intro r hr
    rw [hfold] at hr
    have hmem : r ∈ (allStoredChunks prs).map toSimilarityResult :=
      ((List.perm_insertionSort simDescending _).mem_iff).mp (List.mem_of_mem_take hr)
    obtain ⟨d, hd, hrd⟩ := List.mem_map.mp hmem
    exact ⟨d, hd, hrd.symm⟩
  · rw [hfold]
    exact List.Pairwise.sublist (List.take_sublist _ _)
      (List.sorted_insertionSort simDescending _)
  · rw [hfold]
    exact List.length_take_le _ _
  · intro hle
    rw [hfold]
    have hlen : (List.insertionSort simDescending
        ((allStoredChunks prs).map toSimilarityResult)).length ≤ topK := by
      rw [(List.perm_insertionSort simDescending _).length_eq, List.length_map]
      exact hle
    rw [List.take_of_length_le hlen]
    exact List.perm_insertionSort simDescending _

/-- C4 witness: a concrete two-partition store with three rows and
`topK = 5`, where the fourth conjunct's hypothesis holds. -/
theorem queryVectorDBWithCosineSimilarity_spec_witness :
    (allStoredChunks [some [⟨"a", none, 0⟩, ⟨"b", none, (1 : ℚ) / 2⟩], none,
        some [⟨"c", (none : Option Unit), 1⟩]]).length ≤ 5
    ∧ (queryVectorDBWithCosineSimilarity
        [some [⟨"a", none, 0⟩, ⟨"b", none, (1 : ℚ) / 2⟩], none,
          some [⟨"c", (none : Option Unit), 1⟩]] 5).Perm
        ((allStoredChunks [some [⟨"a", none, 0⟩, ⟨"b", none, (1 : ℚ) / 2⟩], none,
          some [⟨"c", (none : Option Unit), 1⟩]]).map toSimilarityResult) := by
  have h := queryVectorDBWithCosineSimilarity_spec
    [some [⟨"a", none, 0⟩, ⟨"b", none, (1 : ℚ) / 2⟩], none,
      some [⟨"c", (none : Option Unit), 1⟩]] 5
  refine ⟨by decide, h.2.2.2 (by decide)⟩

/-- Modelled from the spec: the secondary query mode as the spec describes
it — "follows identical retrieval semantics but returns text and metadata
only", i.e. the text/metadata projection of the similarity-scored mode's
output (same merge across partitions, same descending-similarity order,
same truncation to the global top-k). -/
def queryVectorDBSpecProjection {μ : Type}
    (partitionResults : List (Option (List (StoredChunk μ)))) (topK : Nat) :
    List (VectorDBResult μ) :=
  (queryVectorDBWithCosineSimilarity partitionResults topK).map
    (fun r => ⟨r.text, r.metadata⟩)

/-- C5 counterexample: two partitions of one row each and `topK = 1`.  The
similarity-scored mode returns the global top-1 (one row), so its projection
has one entry, while `queryVectorDB` returns both rows: the secondary mode
does not follow the claimed identical retrieval semantics. -/
theorem queryVectorDB_not_projection_of_similarity_mode :
    queryVectorDB [some [⟨"a", (none : Option Unit), 0⟩], some [⟨"b", none, 0⟩]] 1 ≠
      queryVectorDBSpecProjection [some [⟨"a", none, 0⟩], some [⟨"b", none, 0⟩]] 1 := by
  intro h
  have h2 : (queryVectorDB [some [⟨"a", (none : Option Unit), 0⟩],
      some [⟨"b", none, 0⟩]] 1).length = 2 := by rfl
  have h1 : (queryVectorDBSpecProjection [some [⟨"a", (none : Option Unit), 0⟩],
      some [⟨"b", none, 0⟩]] 1).length ≤ 1 := by
    simp only [queryVectorDBSpecProjection, List.length_map,
      queryVectorDBWithCosineSimilarity]
    exact List.length_take_le _ _
  rw [h] at h2
  omega

/-- C5 amended: `queryVectorDB` issues the same per-partition queries but
merely concatenates the per-partition text/metadata projections in partition
order — it applies no global re-ranking by similarity and no truncation to
the global top-k, so it can return up to `topK` results per partition
rather than `topK` overall. -/
theorem queryVectorDB_concatenation (μ : Type)
    (prs : List (Option (List (StoredChunk μ)))) (topK : Nat) :
    queryVectorDB prs topK = (allStoredChunks prs).map toVectorDBResult := by
  simp only [queryVectorDB]
  rw [foldl_partition_append toVectorDBResult prs []]
  rfl

/-! ## Weighted scoring (src/jobs/evaluation.worker.ts)

The standardized rubrics are stored on the vacancy as `Schema.Types.Mixed`;
the worker only ever reads the `weight` numbers of the fixed parameters, so
a stored rubric is modelled by its weights. -/

/-- Weights of a standardized CV rubric
(`standardizedCvRubric.<param>.weight`). -/
structure CVRubricWeights where
  technical_skills : ℚ
  experience_level : ℚ
  achievements : ℚ
  cultural_fit : ℚ
deriving DecidableEq

/-- Weights of a standardized project rubric
(`standardizedProjectRubric.<param>.weight`). -/
structure ProjectRubricWeights where
  correctness : ℚ
  code_quality : ℚ
  resilience : ℚ
  documentation : ℚ
  creativity : ℚ
deriving DecidableEq

/-- The weighted CV score of evaluation.worker.ts (`cvWeightedScore`), on
the happy path where all four parsed scores are numbers. -/
def cvWeightedScore (w : CVRubricWeights) (ts el ach cf : ℚ) : ℚ :=
  ts * w.technical_skills + el * w.experience_level + ach * w.achievements +
    cf * w.cultural_fit

/-- The CV match rate of evaluation.worker.ts: the weighted score converted
to a 0-1 scale by dividing by 5. -/
def cvMatchRate (w : CVRubricWeights) (ts el ach cf : ℚ) : ℚ :=
  cvWeightedScore w ts el ach cf / 5

/-- The weighted project score of evaluation.worker.ts (`projectScore`),
computed only when all five parsed scores are numbers; it is NOT divided
by 5. -/
def projectWeightedScore (w : ProjectRubricWeights) (c cq rs doc cr : ℚ) : ℚ :=
  c * w.correctness + cq * w.code_quality + rs * w.resilience +
    doc * w.documentation + cr * w.creativity

/-! NaN-propagating arithmetic: a JS field read off a duck-typed parsed
object may be `undefined`, and `undefined * x`, `NaN + x`, `NaN / x` are all
`NaN`.  `none` models `undefined`/`NaN`. -/

/-- JS multiplication of a possibly-undefined value by a number. -/
def nanMul : Option ℚ → ℚ → Option ℚ
  | none, _ => none
  | some a, b => some (a * b)

/-- JS addition of two possibly-NaN values. -/
def nanAdd : Option ℚ → Option ℚ → Option ℚ
  | some a, some b => some (a + b)
  | _, _ => none

/-- JS division of a possibly-NaN value by a number. -/
def nanDiv : Option ℚ → ℚ → Option ℚ
  | none, _ => none
  | some a, b => some (a / b)

/-! ## Scoring theorems (claim C1) -/

/-- C1 counterexample: requiring only that the weights sum to 1.0 does not
keep `cv_match_rate` within the claimed bounds — with weights
(2, -1, 0, 0), which sum to 1, and scores (1, 5, 1, 1), all within 1..5,
the match rate is -3/5, outside the interval from 1/5 to 1. -/
theorem cvMatchRate_outside_bounds_with_negative_weight :
    ((2 : ℚ) + (-1) + 0 + 0 = 1)
    ∧ ((1 : ℚ) ≤ 1 ∧ (1 : ℚ) ≤ 5) ∧ ((1 : ℚ) ≤ 5 ∧ (5 : ℚ) ≤ 5)
    ∧ cvMatchRate ⟨2, -1, 0, 0⟩ 1 5 1 1 = -3 / 5
    ∧ ¬ ((1 : ℚ) / 5 ≤ cvMatchRate ⟨2, -1, 0, 0⟩ 1 5 1 1
          ∧ cvMatchRate ⟨2, -1, 0, 0⟩ 1 5 1 1 ≤ 1) := by
  refine ⟨by norm_num, ⟨by norm_num, by norm_num⟩, ⟨by norm_num, by norm_num⟩, ?_, ?_⟩
  · unfold cvMatchRate cvWeightedScore
    norm_num
  · unfold cvMatchRate cvWeightedScore
    norm_num

/-- C1 amended: for nonnegative CV rubric weights summing to 1.0 and four
scores each within 1..5, the computed match rate equals the weighted sum of
the scores divided by 5, lies between 1/5 and 1, equals 1 when all scores
are 5 and equals 1/5 when all scores are 1. -/
theorem cvMatchRate_formula_and_bounds (w : CVRubricWeights) (ts el ach cf : ℚ)
    (hw1 : 0 ≤ w.technical_skills) (hw2 : 0 ≤ w.experience_level)
    (hw3 : 0 ≤ w.achievements) (hw4 : 0 ≤ w.cultural_fit)
    (hsum : w.technical_skills + w.experience_level + w.achievements + w.cultural_fit = 1)
    (hts1 : 1 ≤ ts) (hts5 : ts ≤ 5) (hel1 : 1 ≤ el) (hel5 : el ≤ 5)
    (hach1 : 1 ≤ ach) (hach5 : ach ≤ 5) (hcf1 : 1 ≤ cf) (hcf5 : cf ≤ 5) :
    cvMatchRate w ts el ach cf =
      (ts * w.technical_skills + el * w.experience_level + ach * w.achievements
        + cf * w.cultural_fit) / 5
    ∧ 1 / 5 ≤ cvMatchRate w ts el ach cf
    ∧ cvMatchRate w ts el ach cf ≤ 1
    ∧ cvMatchRate w 5 5 5 5 = 1
    ∧ cvMatchRate w 1 1 1 1 = 1 / 5 := by
  have hlo : w.technical_skills + w.experience_level + w.achievements + w.cultural_fit ≤
      cvWeightedScore w ts el ach cf := by
    unfold cvWeightedScore
    have t1 : 1 * w.technical_skills ≤ ts * w.technical_skills :=
      mul_le_mul_of_nonneg_right hts1 hw1
    have t2 : 1 * w.experience_level ≤ el * w.experience_level :=
      mul_le_mul_of_nonneg_right hel1 hw2
    have t3 : 1 * w.achievements ≤ ach * w.achievements :=
      mul_le_mul_of_nonneg_right hach1 hw3
    have t4 : 1 * w.cultural_fit ≤ cf * w.cultural_fit :=
      mul_le_mul_of_nonneg_right hcf1 hw4
    linarith
  have hhi : cvWeightedScore w ts el ach cf ≤
      5 * (w.technical_skills + w.experience_level + w.achievements + w.cultural_fit) := by
    unfold cvWeightedScore
    have t1 : ts * w.technical_skills ≤ 5 * w.technical_skills :=
      mul_le_mul_of_nonneg_right hts5 hw1
    have t2 : el * w.experience_level ≤ 5 * w.experience_level :=
      mul_le_mul_of_nonneg_right hel5 hw2
    have t3 : ach * w.achievements ≤ 5 * w.achievements :=
      mul_le_mul_of_nonneg_right hach5 hw3
    have t4 : cf * w.cultural_fit ≤ 5 * w.cultural_fit :=
      mul_le_mul_of_nonneg_right hcf5 hw4
    linarith
  refine ⟨rfl, ?_, ?_, ?_, ?_⟩
  · unfold cvMatchRate
    rw [hsum] at hlo
    linarith
  · unfold cvMatchRate
    rw [hsum] at hhi
    linarith
  · have hfive : cvMatchRate w 5 5 5 5 =
        w.technical_skills + w.experience_level + w.achievements + w.cultural_fit := by
      unfold cvMatchRate cvWeightedScore
      ring
    rw [hfive, hsum]
  · have hone : cvMatchRate w 1 1 1 1 =
        (w.technical_skills + w.experience_level + w.achievements + w.cultural_fit) / 5 := by
      unfold cvMatchRate cvWeightedScore
      ring
    rw [hone, hsum]

/-- C1 witness: the amended theorem applied at the standard CV weights
0.4 / 0.25 / 0.2 / 0.15 and the scores (3, 4, 2, 5). -/
theorem cvMatchRate_formula_and_bounds_witness :
    cvMatchRate ⟨2/5, 1/4, 1/5, 3/20⟩ 3 4 2 5 =
      ((3 : ℚ) * (2/5) + 4 * (1/4) + 2 * (1/5) + 5 * (3/20)) / 5
    ∧ 1 / 5 ≤ cvMatchRate ⟨2/5, 1/4, 1/5, 3/20⟩ 3 4 2 5
    ∧ cvMatchRate ⟨2/5, 1/4, 1/5, 3/20⟩ 3 4 2 5 ≤ 1
    ∧ cvMatchRate ⟨2/5, 1/4, 1/5, 3/20⟩ 5 5 5 5 = 1
    ∧ cvMatchRate ⟨2/5, 1/4, 1/5, 3/20⟩ 1 1 1 1 = 1 / 5 :=
  cvMatchRate_formula_and_bounds ⟨2/5, 1/4, 1/5, 3/20⟩ 3 4 2 5
    (by norm_num) (by norm_num) (by norm_num) (by norm_num) (by norm_num)
    (by norm_num) (by norm_num) (by norm_num) (by norm_num)
    (by norm_num) (by norm_num) (by norm_num) (by norm_num)

/-! ## Evaluation worker pipeline (src/jobs/evaluation.worker.ts)

The worker body is a sequence of awaits on external collaborators (Mongo
lookups, PDF extraction, three LLM calls, the vector queries), each of which
either yields a value or throws.  The environment `EvalEnv` records the
outcome each collaborator would produce; the definitions below translate the
worker's control flow over those outcomes.  The `try`/`catch` around the
body maps a thrown error to the `failed` job status; the vacancy lookup
happens before the `try`, so its failure leaves the job record untouched. -/

/-- Vacancy lifecycle states (job-vacancy.model.ts). -/
inductive VacancyStatus where
  | pending
  | processing
  | active
  | inactive
  | failed
deriving DecidableEq

/-- Vacancy evaluation kinds (types/common.ts). -/
inductive JobType where
  | cv_only
  | cv_with_test
deriving DecidableEq

/-- The fields of a stored vacancy record read by the workers.  The
standardized rubrics are `Schema.Types.Mixed` and absent until ingestion
stores them, hence `Option`; reading `.weight` through an absent rubric
throws a `TypeError` in JS. -/
structure Vacancy where
  status : VacancyStatus
  type : JobType
  cvEvaluationQueries : List String
  projectEvaluationQueries : List String
  standardizedCvRubric : Option CVRubricWeights
  standardizedProjectRubric : Option ProjectRubricWeights
deriving DecidableEq

/-- The CV evaluation object parsed from the LLM's JSON response
(types/services.ts `CVEvaluationResult`).  Parsing performs no validation,
so every score field may be absent or non-numeric: `none`. -/
structure CVEvaluationResult where
  technical_skills : Option ℚ
  experience_level : Option ℚ
  achievements : Option ℚ
  cultural_fit : Option ℚ
  feedback : String
deriving DecidableEq

/-- The project evaluation object parsed from the LLM's JSON response
(types/services.ts `ProjectEvaluationResult`). -/
structure ProjectEvaluationResult where
  is_relevant : Option Bool
  correctness : Option ℚ
  code_quality : Option ℚ
  resilience : Option ℚ
  documentation : Option ℚ
  creativity : Option ℚ
  feedback : String
deriving DecidableEq

/-- The summary object parsed from the LLM's JSON response. -/
structure SummaryResult where
  overall_summary : Option String
deriving DecidableEq

/-- Embedding of `parseLLMResponse` (ai.service.ts).  The source strips
markdown code fences and, when direct `JSON.parse` fails, retries on the
first-to-last-brace block; `JSON.parse` is a JS runtime primitive, so the
embedding takes the end-to-end parse outcome as input (`none` when both
attempts throw).  The function's contract is translated faithfully: a
failed parse throws, and a successful parse is returned with NO validation
of the expected fields (the TypeScript type parameter is erased at
runtime). -/
def parseLLMResponse {α : Type} (parsed : Option α) : Except String α :=
  match parsed with
  | some v => Except.ok v
  | none => Except.error "Failed to parse LLM response as JSON"

/-- The `cv_detailed_scores` sub-object of the persisted result. -/
structure CVDetailedScores where
  technical_skills : Option ℚ
  experience_level : Option ℚ
  achievements : Option ℚ
  cultural_fit : Option ℚ
deriving DecidableEq

/-- The `project_detailed_scores` sub-object of the persisted result. -/
structure ProjectDetailedScores where
  correctness : Option ℚ
  code_quality : Option ℚ
  resilience : Option ℚ
  documentation : Option ℚ
  creativity : Option ℚ
deriving DecidableEq

/-- The final `result` object persisted on the job record.  For
`cv_match_rate`, `none` models the JS `NaN` produced when a score field was
missing; for the three `project_*` fields, `none` models the KEY being
absent from the object (they are added only when a project evaluation
exists, and `project_detailed_scores` only when the document was
relevant). -/
structure EvaluationResultRecord where
  cv_match_rate : Option ℚ
  cv_feedback : String
  cv_detailed_scores : CVDetailedScores
  overall_summary : String
  project_score : Option ℚ
  project_feedback : Option String
  project_detailed_scores : Option ProjectDetailedScores
deriving DecidableEq

/-- Outcomes of the external calls the worker awaits, in program order.
`cvLLM`/`projectLLM`/`summaryLLM` combine the `callLLM` outcome (`error`
when the HTTP call throws) with the JSON-parse outcome of the returned text
(`ok none` when `parseLLMResponse` would throw). -/
structure EvalEnv where
  vacancy : Option Vacancy
  reportProvided : Bool
  cvFileFound : Bool
  reportFileFound : Bool
  cvText : Except String String
  cvLLM : Except String (Option CVEvaluationResult)
  reportText : Except String String
  projectLLM : Except String (Option ProjectEvaluationResult)
  summaryLLM : Except String (Option SummaryResult)

/-- STAGE 2 of the worker: project evaluation.  Skipped for `cv_only`
vacancies (score 0, no evaluation object).  For `cv_with_test`: extract the
report, query the vector store (outcome not score-relevant), call and parse
the LLM; a document flagged `is_relevant: false` scores 0 with the parsed
object kept; when any of the five score fields is absent or non-numeric the
score is 0 and `is_relevant` is overwritten to `false` on the object;
otherwise the weighted score is computed from the standardized project
rubric, whose absence throws. -/
def projectStage (env : EvalEnv) (vac : Vacancy) :
    Except String (ℚ × Option ProjectEvaluationResult) :=
  match vac.type with
  | JobType.cv_only => Except.ok (0, none)
  | JobType.cv_with_test =>
    match env.reportText with
    | Except.error e => Except.error e
    | Except.ok _ =>
      match env.projectLLM with
      | Except.error e => Except.error e
      | Except.ok parsed =>
        match parseLLMResponse parsed with
        | Except.error e => Except.error e
        | Except.ok pe =>
          match pe.is_relevant with
          | some false => Except.ok (0, some pe)
          | _ =>
            match pe.correctness, pe.code_quality, pe.resilience,
                pe.documentation, pe.creativity with
            | some c, some cq, some rs, some doc, some cr =>
              match vac.standardizedProjectRubric with
              | none =>
                  Except.error "Standardized project rubric not found for cv_with_test vacancy"
              | some rub => Except.ok (projectWeightedScore rub c cq rs doc cr, some pe)
            | _, _, _, _, _ =>
                Except.ok (0, some { pe with is_relevant := some false })

/-- Compile Final Result (evaluation.worker.ts): the CV fields are always
present; the `project_*` keys are added only when a project evaluation
object exists, and `project_detailed_scores` only when `is_relevant` is not
`false` on that object. -/
def assembleResult (cvMR : Option ℚ) (cvEv : CVEvaluationResult) (projectScore : ℚ)
    (projectEvaluation : Option ProjectEvaluationResult) (overallSummary : String) :
    EvaluationResultRecord :=
  let base : EvaluationResultRecord :=
    { cv_match_rate := cvMR
      cv_feedback := cvEv.feedback
      cv_detailed_scores :=
        ⟨cvEv.technical_skills, cvEv.experience_level, cvEv.achievements, cvEv.cultural_fit⟩
      overall_summary := overallSummary
      project_score := none
      project_feedback := none
      project_detailed_scores := none }
  match projectEvaluation with
  | none => base
  | some pe =>
      { base with
        project_score := some projectScore
        project_feedback := some pe.feedback
        project_detailed_scores :=
          match pe.is_relevant with
          | some false => none
          | _ => some ⟨pe.correctness, pe.code_quality, pe.resilience,
                  pe.documentation, pe.creativity⟩ }

/-- The pipeline from CV text extraction onward — the body of the worker's
`try` block once the file lookups succeeded: CV text extraction, CV LLM
call and parse, weighted CV score through the NaN-propagating arithmetic
(`vacancy.standardizedCvRubric` being absent throws a `TypeError` on the
`.weight` read), the project stage, the summary LLM call and parse (reading
`.length` of an absent `overall_summary` throws), and final result
assembly. -/
def runPipelineAfterFiles (env : EvalEnv) (vac : Vacancy) :
    Except String EvaluationResultRecord :=
  match env.cvText with
  | Except.error e => Except.error e
  | Except.ok _ =>
    -- the first vacancy-stored query (else the raw CV text) feeds the
    -- vector query, whose retrieved context only reaches the prompt text
    match env.cvLLM with
    | Except.error e => Except.error e
    | Except.ok parsed =>
      match parseLLMResponse parsed with
      | Except.error e => Except.error e
      | Except.ok cvEvaluation =>
        match vac.standardizedCvRubric with
        | none => Except.error "TypeError: cannot read properties of undefined"
        | some cvRubric =>
          match projectStage env vac with
          | Except.error e => Except.error e
          | Except.ok (projectScore, projectEvaluation) =>
            match env.summaryLLM with
            | Except.error e => Except.error e
            | Except.ok sparsed =>
              match parseLLMResponse sparsed with
              | Except.error e => Except.error e
              | Except.ok summary =>
                match summary.overall_summary with
                | none => Except.error "TypeError: cannot read properties of undefined"
                | some osum =>
                    -- cvWeightedScore / cvMatchRate of the worker, through
                    -- the NaN-propagating arithmetic
                    Except.ok (assembleResult
                      (nanDiv (nanAdd (nanAdd (nanAdd
                        (nanMul cvEvaluation.technical_skills cvRubric.technical_skills)
                        (nanMul cvEvaluation.experience_level cvRubric.experience_level))
                        (nanMul cvEvaluation.achievements cvRubric.achievements))
                        (nanMul cvEvaluation.cultural_fit cvRubric.cultural_fit)) 5)
                      cvEvaluation projectScore projectEvaluation osum)

/-- File-lookup checks of the worker (evaluation.worker.ts): a missing CV
file throws; when `job.data.reportId` is nonempty a missing report file
throws; when it is empty a `cv_with_test` vacancy throws "Report file is
required".  On success the rest of the `try` body runs. -/
def runPipeline (env : EvalEnv) (vac : Vacancy) : Except String EvaluationResultRecord :=
  if env.cvFileFound then
    if env.reportProvided then
      if env.reportFileFound then runPipelineAfterFiles env vac
      else Except.error "Report file not found"
    else
      match vac.type with
      | JobType.cv_with_test =>
          Except.error "Report file is required for cv_with_test job vacancies"
      | JobType.cv_only => runPipelineAfterFiles env vac
  else Except.error "CV file not found"

/-- Final observable status of one evaluation job run. -/
inductive JobOutcome where
  | thrownBeforeTry (error : String)
  | failed (error : String)
  | completed (result : EvaluationResultRecord)
deriving DecidableEq

/-- The evaluation worker's processor (getEvaluationWorker,
evaluation.worker.ts): the vacancy is fetched before the `try` block — a
missing vacancy throws without touching the job record; inside the `try`,
any thrown error is caught, the job is marked `failed` and the error
rethrown; otherwise the assembled result is persisted with status
`completed`.  Note: the worker checks only that the vacancy EXISTS — it
never reads `vacancy.status`. -/
def processEvaluationJob (env : EvalEnv) : JobOutcome :=
  match env.vacancy with
  | none => JobOutcome.thrownBeforeTry "Job vacancy not found"
  | some vac =>
    match runPipeline env vac with
    | Except.error e => JobOutcome.failed e
    | Except.ok res => JobOutcome.completed res

/-! ## Pipeline shape lemmas -/

/-- The function parseLLMResponse succeeds exactly on a successful JSON parse. -/
theorem parseLLMResponse_eq_ok {α : Type} {p : Option α} {v : α} :
    parseLLMResponse p = Except.ok v ↔ p = some v := by
  cases p <;> simp [parseLLMResponse]

/-- A successful pipeline run passed the file-lookup checks. -/
theorem runPipeline_ok_implies_afterFiles {env : EvalEnv} {vac : Vacancy}
    {res : EvaluationResultRecord} (h : runPipeline env vac = Except.ok res) :
    runPipelineAfterFiles env vac = Except.ok res := by
  unfold runPipeline at h
  repeat' split at h
  all_goals first | exact h | cases h

/-- Inversion for a successful pipeline run: the CV LLM response parsed, the
CV rubric was present, the project stage succeeded, and the result is the
assembly of the NaN-propagated CV match rate with the project stage's
output. -/
theorem runPipelineAfterFiles_ok_shape {env : EvalEnv} {vac : Vacancy}
    {res : EvaluationResultRecord}
    (h : runPipelineAfterFiles env vac = Except.ok res) :
    ∃ cvEv cvRubric out osum,
      env.cvLLM = Except.ok (some cvEv) ∧
      vac.standardizedCvRubric = some cvRubric ∧
      projectStage env vac = Except.ok out ∧
      res = assembleResult
        (nanDiv (nanAdd (nanAdd (nanAdd
          (nanMul cvEv.technical_skills cvRubric.technical_skills)
          (nanMul cvEv.experience_level cvRubric.experience_level))
          (nanMul cvEv.achievements cvRubric.achievements))
          (nanMul cvEv.cultural_fit cvRubric.cultural_fit)) 5)
        cvEv out.1 out.2 osum := by
  unfold runPipelineAfterFiles at h
  cases h1 : env.cvText with
  | error e => rw [h1] at h; cases h
  | ok cvText =>
    rw [h1] at h
    cases h2 : env.cvLLM with
    | error e => rw [h2] at h; cases h
    | ok parsed =>
      rw [h2] at h
      cases parsed with
      | none => simp [parseLLMResponse] at h
      | some cvEv =>
        simp only [parseLLMResponse] at h
        cases h3 : vac.standardizedCvRubric with
        | none => rw [h3] at h; cases h
        | some cvRubric =>
          rw [h3] at h
          cases h4 : projectStage env vac with
          | error e => rw [h4] at h; cases h
          | ok out =>
            rw [h4] at h
            obtain ⟨ps, pev⟩ := out
            cases h5 : env.summaryLLM with
            | error e => rw [h5] at h; cases h
            | ok sparsed =>
              rw [h5] at h
              cases sparsed with
              | none => simp [parseLLMResponse] at h
              | some summary =>
                simp only [parseLLMResponse] at h
                cases h6 : summary.overall_summary with
                | none => rw [h6] at h; cases h
                | some osum =>
                  rw [h6] at h
                  cases h
                  exact ⟨cvEv, cvRubric, (ps, pev), osum, rfl, rfl, rfl, rfl⟩

/-- When the parsed project evaluation is flagged irrelevant, or any of its
five score fields is absent or non-numeric, a successful project stage
yields score 0 and an evaluation object whose `is_relevant` is `false`. -/
theorem projectStage_zero_of_gated {env : EvalEnv} {vac : Vacancy}
    {pe : ProjectEvaluationResult}
    (htype : vac.type = JobType.cv_with_test)
    (hpe : env.projectLLM = Except.ok (some pe))
    (hbad : pe.is_relevant = some false ∨ pe.correctness = none ∨
      pe.code_quality = none ∨ pe.resilience = none ∨
      pe.documentation = none ∨ pe.creativity = none) :
    ∀ out, projectStage env vac = Except.ok out →
      out.1 = 0 ∧ ∃ pe2, out.2 = some pe2 ∧ pe2.is_relevant = some false := by
  intro out hout
  unfold projectStage at hout
  rw [htype] at hout
  cases h1 : env.reportText with
  | error e => rw [h1] at hout; cases hout
  | ok rt =>
    rw [h1, hpe] at hout
    simp only [parseLLMResponse] at hout
    split at hout
    · -- is_relevant = some false
      rename_i hrel
      cases hout
      exact ⟨rfl, pe, rfl, hrel⟩
    · split at hout
      · -- all five score fields present: contradicts hbad unless is_relevant
        -- was some false, which contradicts being in this arm
        rename_i hnotfalse c cq rs doc cr hc hcq hrs hdoc hcr
        rcases hbad with hb | hb | hb | hb | hb | hb <;> simp_all
      · cases hout
        exact ⟨rfl, _, rfl, rfl⟩

/-- When the parsed project evaluation is not flagged irrelevant and all
five score fields are numbers, a successful project stage yields the
weighted sum of the scores under the standardized project rubric weights —
left on the 1-5 scale — together with the unmodified evaluation object. -/
theorem projectStage_scored {env : EvalEnv} {vac : Vacancy}
    {pe : ProjectEvaluationResult} {prub : ProjectRubricWeights}
    {c cq rs doc cr : ℚ}
    (htype : vac.type = JobType.cv_with_test)
    (hpe : env.projectLLM = Except.ok (some pe))
    (hrel : pe.is_relevant ≠ some false)
    (hc : pe.correctness = some c) (hcq : pe.code_quality = some cq)
    (hrs : pe.resilience = some rs) (hdoc : pe.documentation = some doc)
    (hcr : pe.creativity = some cr)
    (hprub : vac.standardizedProjectRubric = some prub) :
    ∀ out, projectStage env vac = Except.ok out →
      out = (projectWeightedScore prub c cq rs doc cr, some pe) := by
  intro out hout
  obtain ⟨rel, pc, pcq, prs, pdoc, pcr, fb⟩ := pe
  simp only [] at hc hcq hrs hdoc hcr hrel
  subst hc hcq hrs hdoc hcr
  unfold projectStage at hout
  rw [htype] at hout
  cases h1 : env.reportText with
  | error e => rw [h1] at hout; cases hout
  | ok rt =>
    rw [h1, hpe] at hout
    simp only [parseLLMResponse] at hout
    cases rel with
    | none =>
        rw [hprub] at hout
        simp only [] at hout
        cases hout
        rfl
    | some b =>
        cases b with
        | false => exact absurd rfl hrel
        | true =>
            rw [hprub] at hout
            simp only [] at hout
            cases hout
            rfl

/-! ## Evaluation worker theorems (claims C2, C8, C7, C6) -/

/-- C2: for a project evaluation on a `cv_with_test` submission, if the
parsed LLM response is flagged `is_relevant: false`, or any of the five
expected score fields (correctness, code_quality, resilience,
documentation, creativity) is absent or non-numeric, then the persisted
final result has `project_score` 0 and no `project_detailed_scores` key. -/
theorem project_relevance_gating (env : EvalEnv) (vac : Vacancy)
    (pe : ProjectEvaluationResult) (res : EvaluationResultRecord)
    (hvac : env.vacancy = some vac)
    (htype : vac.type = JobType.cv_with_test)
    (hpe : env.projectLLM = Except.ok (some pe))
    (hbad : pe.is_relevant = some false ∨ pe.correctness = none ∨
      pe.code_quality = none ∨ pe.resilience = none ∨
      pe.documentation = none ∨ pe.creativity = none)
    (hdone : processEvaluationJob env = JobOutcome.completed res) :
    res.project_score = some 0 ∧ res.project_detailed_scores = none := by
  unfold processEvaluationJob at hdone
  rw [hvac] at hdone
  dsimp only [] at hdone
  cases hr : runPipeline env vac with
  | error e => rw [hr] at hdone; cases hdone
  | ok r =>
      rw [hr] at hdone
      cases hdone
      obtain ⟨cvEv, crub, out, osum, hcv, hcrub, hps, hres⟩ :=
        runPipelineAfterFiles_ok_shape (runPipeline_ok_implies_afterFiles hr)
      obtain ⟨h0, pe2, hout2, hrel2⟩ := projectStage_zero_of_gated htype hpe hbad out hps
      subst hres
      simp [assembleResult, hout2, h0, hrel2]

/-- C8: for a relevant project evaluation with all five numeric scores, the
persisted `project_score` is the weighted sum of the five 1-5 scores under
the standardized project rubric weights — NOT divided by 5 — while
`cv_match_rate` is the weighted CV sum divided by 5 onto a 0-1 scale; the
asymmetry of the source is preserved. -/
theorem project_cv_weighting_asymmetry (env : EvalEnv) (vac : Vacancy)
    (cvEv : CVEvaluationResult) (pe : ProjectEvaluationResult)
    (crub : CVRubricWeights) (prub : ProjectRubricWeights)
    (ts el ach cf c cq rs doc cr : ℚ) (res : EvaluationResultRecord)
    (hvac : env.vacancy = some vac)
    (htype : vac.type = JobType.cv_with_test)
    (hcv : env.cvLLM = Except.ok (some cvEv))
    (hts : cvEv.technical_skills = some ts) (hel : cvEv.experience_level = some el)
    (hach : cvEv.achievements = some ach) (hcf : cvEv.cultural_fit = some cf)
    (hcrub : vac.standardizedCvRubric = some crub)
    (hpe : env.projectLLM = Except.ok (some pe))
    (hrel : pe.is_relevant ≠ some false)
    (hc : pe.correctness = some c) (hcq : pe.code_quality = some cq)
    (hrs : pe.resilience = some rs) (hdoc : pe.documentation = some doc)
    (hcr : pe.creativity = some cr)
    (hprub : vac.standardizedProjectRubric = some prub)
    (hdone : processEvaluationJob env = JobOutcome.completed res) :
    res.project_score = some (projectWeightedScore prub c cq rs doc cr)
    ∧ res.cv_match_rate = some (cvWeightedScore crub ts el ach cf / 5)
    ∧ res.project_detailed_scores =
        some ⟨some c, some cq, some rs, some doc, some cr⟩ := by
  unfold processEvaluationJob at hdone
  rw [hvac] at hdone
  dsimp only [] at hdone
  cases hr : runPipeline env vac with
  | error e => rw [hr] at hdone; cases hdone
  | ok r =>
      rw [hr] at hdone
      cases hdone
      obtain ⟨cvEv2, crub2, out, osum, hcv2, hcrub2, hps, hres⟩ :=
        runPipelineAfterFiles_ok_shape (runPipeline_ok_implies_afterFiles hr)
      rw [hcv] at hcv2
      obtain rfl : cvEv = cvEv2 := by
        injection hcv2 with h
        exact Option.some.inj h
      rw [hcrub] at hcrub2
      obtain rfl : crub = crub2 := Option.some.inj hcrub2
      have hout := projectStage_scored htype hpe hrel hc hcq hrs hdoc hcr hprub out hps
      subst hres
      subst hout
      refine ⟨by simp [assembleResult], ?_, ?_⟩
      · simp [assembleResult, hts, hel, hach, hcf, nanMul, nanAdd, nanDiv,
          cvWeightedScore]
      · cases hb : pe.is_relevant with
        | none => simp [assembleResult, hb, hc, hcq, hrs, hdoc, hcr]
        | some b =>
            cases b with
            | false => exact absurd hb hrel
            | true => simp [assembleResult, hb, hc, hcq, hrs, hdoc, hcr]

/-- C7 amended: when the CV-stage LLM response is not parseable as JSON
(even after fence stripping and brace extraction), `parseLLMResponse`
throws, the error is caught, and the submission is marked failed.  Missing
expected score fields, by contrast, are not validated anywhere in the CV
stage: see `missing_cv_score_fields_complete_submission`. -/
theorem cv_parse_failure_fails_submission (env : EvalEnv) (vac : Vacancy)
    (hvac : env.vacancy = some vac)
    (hparse : env.cvLLM = Except.ok none) :
    ∃ e, processEvaluationJob env = JobOutcome.failed e := by
  unfold processEvaluationJob
  rw [hvac]
  dsimp only []
  cases hr : runPipeline env vac with
  | error e => exact ⟨e, rfl⟩
  | ok r =>
      exfalso
      obtain ⟨cvEv, _, _, _, hcv, _, _, _⟩ :=
        runPipelineAfterFiles_ok_shape (runPipeline_ok_implies_afterFiles hr)
      rw [hparse] at hcv
      simp at hcv

/-! ## Submission creation (src/api/v1/evaluate/handlers/create.handler.ts) -/

/-- Outcome of the create-evaluation HTTP handler: a synchronous rejection
with an HTTP status, or a job created and enqueued. -/
inductive CreateEvaluationOutcome where
  | rejected (httpStatus : Nat) (error : String)
  | enqueued (withReport : Bool)
deriving DecidableEq

/-- Embedding of `createEvaluationHandler` (create.handler.ts): reject with
404 when the vacancy does not exist, with 400 when its status is not
`active`, with 404 when the CV file (or a provided report file) does not
exist, and with 400 when a `cv_with_test` vacancy has no `reportId`; only
then is the job record created and the evaluation job enqueued. -/
def createEvaluationHandler (vacancy : Option Vacancy)
    (cvFileFound reportFileFound reportIdProvided : Bool) :
    CreateEvaluationOutcome :=
  match vacancy with
  | none => CreateEvaluationOutcome.rejected 404 "Job vacancy not found"
  | some vac =>
    if vac.status = VacancyStatus.active then
      if cvFileFound then
        if reportIdProvided && !reportFileFound then
          CreateEvaluationOutcome.rejected 404 "Report file not found"
        else if vac.type = JobType.cv_with_test ∧ reportIdProvided = false then
          CreateEvaluationOutcome.rejected 400
            "reportId is required for cv_with_test job vacancies"
        else CreateEvaluationOutcome.enqueued reportIdProvided
      else CreateEvaluationOutcome.rejected 404 "CV file not found"
    else CreateEvaluationOutcome.rejected 400 "Job vacancy is not active"

/-! ## Concrete environments for the worker theorems -/

/-- The standard CV rubric weights 0.4 / 0.25 / 0.2 / 0.15. -/
def standardCvWeights : CVRubricWeights := ⟨2/5, 1/4, 1/5, 3/20⟩

/-- The standard project rubric weights 0.3 / 0.25 / 0.2 / 0.15 / 0.1. -/
def standardProjectWeights : ProjectRubricWeights := ⟨3/10, 1/4, 1/5, 3/20, 1/10⟩

/-- An ingested `cv_only` vacancy that was toggled to `inactive` after
activation (update.handler.ts allows this), so its rubric is present. -/
def inactiveVacancy : Vacancy :=
  ⟨VacancyStatus.inactive, JobType.cv_only, ["query one"], [],
    some standardCvWeights, none⟩

/-- A fully successful evaluation environment whose vacancy is the inactive
one. -/
def envInactiveVacancy : EvalEnv :=
  ⟨some inactiveVacancy, false, true, false, Except.ok "cv text",
    Except.ok (some ⟨some 4, some 3, some 5, some 4, "solid CV"⟩),
    Except.ok "", Except.ok none,
    Except.ok (some ⟨some "overall summary"⟩)⟩

/-- An active `cv_only` vacancy. -/
def activeCvOnlyVacancy : Vacancy :=
  ⟨VacancyStatus.active, JobType.cv_only, [], [], some standardCvWeights, none⟩

/-- A CV evaluation parsed from valid JSON that is missing the
`technical_skills` score field. -/
def cvEvalMissingScores : CVEvaluationResult :=
  ⟨none, some 3, some 3, some 3, "scores partially missing"⟩

/-- An evaluation environment whose CV LLM response parses but misses a
score field. -/
def envMissingCvScores : EvalEnv :=
  ⟨some activeCvOnlyVacancy, false, true, false, Except.ok "cv text",
    Except.ok (some cvEvalMissingScores), Except.ok "", Except.ok none,
    Except.ok (some ⟨some "summary"⟩)⟩

/-- An evaluation environment whose CV LLM response is not parseable as
JSON. -/
def envCvParseFailure : EvalEnv :=
  ⟨some activeCvOnlyVacancy, false, true, false, Except.ok "cv text",
    Except.ok none, Except.ok "", Except.ok none,
    Except.ok (some ⟨some "summary"⟩)⟩

/-- An active `cv_with_test` vacancy with both standardized rubrics. -/
def activeCvWithTestVacancy : Vacancy :=
  ⟨VacancyStatus.active, JobType.cv_with_test, ["cv query"], ["project query"],
    some standardCvWeights, some standardProjectWeights⟩

/-- A project evaluation flagged irrelevant by the LLM. -/
def irrelevantProjectEval : ProjectEvaluationResult :=
  ⟨some false, none, none, none, none, none, "not a project report"⟩

/-- An evaluation environment for a `cv_with_test` submission whose report
was judged irrelevant. -/
def envIrrelevantProject : EvalEnv :=
  ⟨some activeCvWithTestVacancy, true, true, true, Except.ok "cv text",
    Except.ok (some ⟨some 4, some 3, some 5, some 4, "good"⟩),
    Except.ok "report text", Except.ok (some irrelevantProjectEval),
    Except.ok (some ⟨some "overall"⟩)⟩

/-- A fully scored, relevant project evaluation. -/
def scoredProjectEval : ProjectEvaluationResult :=
  ⟨some true, some 4, some 3, some 5, some 4, some 2, "solid project"⟩

/-- A fully parsed CV evaluation. -/
def fullCvEval : CVEvaluationResult := ⟨some 4, some 3, some 5, some 4, "good"⟩

/-- A fully successful `cv_with_test` evaluation environment. -/
def envScoredProject : EvalEnv :=
  ⟨some activeCvWithTestVacancy, true, true, true, Except.ok "cv text",
    Except.ok (some fullCvEval), Except.ok "report text",
    Except.ok (some scoredProjectEval), Except.ok (some ⟨some "overall"⟩)⟩

/-- C7 counterexample: a CV LLM response that is valid JSON but misses the
`technical_skills` score is NOT rejected — the worker completes the
submission, persisting a result whose `cv_match_rate` is NaN, instead of
throwing and marking the submission failed. -/
theorem missing_cv_score_fields_complete_submission :
    cvEvalMissingScores.technical_skills = none ∧
    envMissingCvScores.cvLLM = Except.ok (some cvEvalMissingScores) ∧
    ∃ res, processEvaluationJob envMissingCvScores = JobOutcome.completed res ∧
      res.cv_match_rate = none :=
  ⟨rfl, rfl, ⟨_, rfl, rfl⟩⟩

/-- C7 witness: the amended theorem at a concrete unparseable-response
environment. -/
theorem cv_parse_failure_fails_submission_witness :
    ∃ e, processEvaluationJob envCvParseFailure = JobOutcome.failed e :=
  cv_parse_failure_fails_submission envCvParseFailure activeCvOnlyVacancy rfl rfl

/-- C2 witness: the relevance-gating theorem at a concrete environment whose
report was judged irrelevant. -/
theorem project_relevance_gating_witness :
    ∃ res, processEvaluationJob envIrrelevantProject = JobOutcome.completed res ∧
      res.project_score = some 0 ∧ res.project_detailed_scores = none := by
  refine ⟨_, rfl, ?_⟩
  exact project_relevance_gating envIrrelevantProject activeCvWithTestVacancy
    irrelevantProjectEval _ rfl rfl rfl (Or.inl rfl) rfl

/-- C8 witness: the asymmetry theorem at a concrete fully scored
environment. -/
theorem project_cv_weighting_asymmetry_witness :
    ∃ res, processEvaluationJob envScoredProject = JobOutcome.completed res ∧
      res.project_score = some (projectWeightedScore standardProjectWeights 4 3 5 4 2) ∧
      res.cv_match_rate = some (cvWeightedScore standardCvWeights 4 3 5 4 / 5) ∧
      res.project_detailed_scores =
        some ⟨some 4, some 3, some 5, some 4, some 2⟩ := by
  refine ⟨_, rfl, ?_⟩
  exact project_cv_weighting_asymmetry envScoredProject activeCvWithTestVacancy
    fullCvEval scoredProjectEval standardCvWeights standardProjectWeights
    4 3 5 4 4 3 5 4 2 _ rfl rfl rfl rfl rfl rfl rfl rfl rfl (by decide)
    rfl rfl rfl rfl rfl rfl rfl

/-- C6 counterexample: the evaluation worker performs NO status
re-validation — a job whose vacancy is `inactive` (not `active`) at
processing time still completes and produces a result, instead of
failing. -/
theorem inactive_vacancy_job_completes :
    inactiveVacancy.status ≠ VacancyStatus.active ∧
    envInactiveVacancy.vacancy = some inactiveVacancy ∧
    ∃ res, processEvaluationJob envInactiveVacancy = JobOutcome.completed res :=
  ⟨by decide, rfl, ⟨_, rfl⟩⟩

/-- C6 amended: the `status == active` requirement is enforced only when
the submission is created — the handler rejects any non-active vacancy with
HTTP 400 before creating or enqueuing a job — while the worker never reads
the vacancy's status: its outcome is invariant under changing the status of
the vacancy it loads. -/
theorem vacancy_active_enforced_only_at_creation :
    (∀ (v : Option Vacancy) (vac : Vacancy) (cvF rF rP : Bool),
        v = some vac → vac.status ≠ VacancyStatus.active →
        createEvaluationHandler v cvF rF rP =
          CreateEvaluationOutcome.rejected 400 "Job vacancy is not active")
    ∧ (∀ (env : EvalEnv) (vac : Vacancy) (s : VacancyStatus),
        processEvaluationJob { env with vacancy := some { vac with status := s } } =
          processEvaluationJob { env with vacancy := some vac }) := by
  constructor
  · intro v vac cvF rF rP hv hstatus
    subst hv
    simp [createEvaluationHandler, hstatus]
  · intro env vac s
    rcases env with ⟨v, rp, cf, rf, ct, cl, rt, pl, sl⟩
    rcases vac with ⟨st, ty, q1, q2, r1, r2⟩
    rfl

/-- C6 witness: the amended theorem at a concrete pending vacancy (handler
part) and at a concrete status change (worker part). -/
theorem vacancy_active_enforced_only_at_creation_witness :
    createEvaluationHandler (some { inactiveVacancy with status := VacancyStatus.pending })
        true false false =
      CreateEvaluationOutcome.rejected 400 "Job vacancy is not active"
    ∧ processEvaluationJob
        { envInactiveVacancy with
          vacancy := some { inactiveVacancy with status := VacancyStatus.processing } } =
      processEvaluationJob { envInactiveVacancy with vacancy := some inactiveVacancy } := by
  constructor
  · exact vacancy_active_enforced_only_at_creation.1 _ _ true false false rfl (by decide)
  · exact vacancy_active_enforced_only_at_creation.2 envInactiveVacancy inactiveVacancy _

/-! ## Vacancy ingestion (src/services/job-ingestion.service.ts and
src/jobs/job-vacancy-ingestion.worker.ts)

Per-document ingestion (`ingestPDFToChromaDB`) resolves the file record,
extracts the PDF text, rejects empty text, chunks it with
`chunkText(text, 1000, 2)` and upserts the chunks with deterministic ids
into the document category's collection; the external outcomes are the
environment.  The four call sites pass one of the four known document
types, so the unknown-document-type throw is unreachable and not
modelled. -/

/-- External outcomes of ingesting one document: the Mongo file lookup, PDF
text extraction and the ChromaDB `collection.add` call. -/
structure DocIngestEnv where
  fileFound : Bool
  extractedText : Except String String
  upsert : Except String Unit

/-- The parsed output of `generateEvaluationQueries` (ai.service.ts), after
its `|| []` default on the CV queries. -/
structure EvaluationQueries where
  cvEvaluationQueries : List String
  projectEvaluationQueries : Option (List String)
deriving DecidableEq

/-- External outcomes of one whole ingestion run: the ChromaDB heartbeat,
the four per-document ingestions, whether the two `cv_with_test` file ids
were supplied, and the three LLM-driven steps (query generation, CV rubric
standardization, project rubric standardization). -/
structure IngestEnv where
  heartbeat : Except String Unit
  jobDescription : DocIngestEnv
  cvRubric : DocIngestEnv
  caseStudyBrief : DocIngestEnv
  projectRubric : DocIngestEnv
  caseStudyBriefProvided : Bool
  projectRubricProvided : Bool
  queries : Except String EvaluationQueries
  cvStandardize : Except String CVRubricWeights
  projectStandardize : Except String ProjectRubricWeights

/-- Return value of `ingestJobVacancy` (job-ingestion.service.ts). -/
structure JobVacancyIngestionResult where
  jobDescriptionText : String
  cvRubricText : String
  caseStudyBriefText : Option String
  projectRubricText : Option String
  cvEvaluationQueries : List String
  projectEvaluationQueries : Option (List String)
  standardizedCvRubric : CVRubricWeights
  standardizedProjectRubric : Option ProjectRubricWeights

/-- Embedding of `ingestPDFToChromaDB` (job-ingestion.service.ts): a missing
file record throws, extraction failure propagates, empty extracted text
throws, the chunks are upserted (failure propagates) and the extracted text
is returned for the subsequent steps. -/
def ingestPDFToChromaDB (env : DocIngestEnv) : Except String String :=
  if env.fileFound then
    match env.extractedText with
    | Except.error e => Except.error e
    | Except.ok text =>
        if (trimChars text.data).isEmpty then
          Except.error "File appears to be empty or unreadable"
        else
          match env.upsert with
          | Except.error e => Except.error e
          | Except.ok _ => Except.ok text
  else Except.error "File not found"

/-- The `cv_with_test` document step of `ingestJobVacancy`: both extra file
ids are required, then the case study brief and the project rubric are
ingested; `cv_only` vacancies skip the step. -/
def ingestCaseStudyDocs (env : IngestEnv) (jobType : JobType) :
    Except String (Option String × Option String) :=
  match jobType with
  | JobType.cv_only => Except.ok (none, none)
  | JobType.cv_with_test =>
      if env.caseStudyBriefProvided && env.projectRubricProvided then
        match ingestPDFToChromaDB env.caseStudyBrief with
        | Except.error e => Except.error e
        | Except.ok cs =>
          match ingestPDFToChromaDB env.projectRubric with
          | Except.error e => Except.error e
          | Except.ok pr => Except.ok (some cs, some pr)
      else
        Except.error "caseStudyBriefFileId and projectRubricFileId are required for cv_with_test type"

/-- Embedding of `ingestJobVacancy` (job-ingestion.service.ts): heartbeat,
ingest the job description and the CV rubric, ingest the two `cv_with_test`
documents if applicable, generate the evaluation queries, standardize the
CV rubric (job description as context) and — for `cv_with_test` with a
project rubric text — the project rubric (case study as context).  Results
are accumulated in locals and returned only when every step succeeded; any
failure aborts the whole run with no partial output. -/
def ingestJobVacancy (env : IngestEnv) (jobType : JobType) :
    Except String JobVacancyIngestionResult :=
  match env.heartbeat with
  | Except.error e => Except.error ("Failed to connect to ChromaDB: " ++ e)
  | Except.ok _ =>
    match ingestPDFToChromaDB env.jobDescription with
    | Except.error e => Except.error e
    | Except.ok jobDescriptionText =>
      match ingestPDFToChromaDB env.cvRubric with
      | Except.error e => Except.error e
      | Except.ok cvRubricText =>
        match ingestCaseStudyDocs env jobType with
        | Except.error e => Except.error e
        | Except.ok (caseStudyBriefText, projectRubricText) =>
          match env.queries with
          | Except.error e => Except.error e
          | Except.ok queries =>
            match env.cvStandardize with
            | Except.error e => Except.error e
            | Except.ok standardizedCvRubric =>
              match jobType, projectRubricText with
              | JobType.cv_with_test, some prText =>
                  match env.projectStandardize with
                  | Except.error e => Except.error e
                  | Except.ok spr =>
                      Except.ok ⟨jobDescriptionText, cvRubricText,
                        caseStudyBriefText, some prText,
                        queries.cvEvaluationQueries,
                        queries.projectEvaluationQueries,
                        standardizedCvRubric, some spr⟩
              | _, _ =>
                  Except.ok ⟨jobDescriptionText, cvRubricText,
                    caseStudyBriefText, projectRubricText,
                    queries.cvEvaluationQueries,
                    queries.projectEvaluationQueries,
                    standardizedCvRubric, none⟩

/-- The ingestion worker's processor (getJobVacancyIngestionWorker,
job-vacancy-ingestion.worker.ts) acting on an existing vacancy record:
status is set to `processing`, `ingestJobVacancy` runs, and a single
`findOneAndUpdate` then either stores the rubrics, the queries and status
`active` (an `undefined` field in the update object is left unchanged by
Mongoose), or — in the `catch` — sets status `failed`, touching no other
field.  The Boolean reports whether the job handler succeeded. -/
def processJobVacancyIngestionJob (env : IngestEnv) (jobType : JobType)
    (rec : Vacancy) : Vacancy × Bool :=
  let rec1 : Vacancy := { rec with status := VacancyStatus.processing }
  match ingestJobVacancy env jobType with
  | Except.ok r =>
      ({ rec1 with
          standardizedCvRubric := some r.standardizedCvRubric
          standardizedProjectRubric :=
            match r.standardizedProjectRubric with
            | none => rec1.standardizedProjectRubric
            | some x => some x
          cvEvaluationQueries := r.cvEvaluationQueries
          projectEvaluationQueries :=
            match r.projectEvaluationQueries with
            | none => rec1.projectEvaluationQueries
            | some qs => qs
          status := VacancyStatus.active }, true)
  | Except.error _ => ({ rec1 with status := VacancyStatus.failed }, false)

/-- A successful ingestion run passed every step it attempted. -/
theorem ingestJobVacancy_ok_steps {env : IngestEnv} {jobType : JobType}
    {r : JobVacancyIngestionResult} (h : ingestJobVacancy env jobType = Except.ok r) :
    (∃ t, ingestPDFToChromaDB env.jobDescription = Except.ok t)
    ∧ (∃ t, ingestPDFToChromaDB env.cvRubric = Except.ok t)
    ∧ (∃ q, env.queries = Except.ok q)
    ∧ (∃ w, env.cvStandardize = Except.ok w) := by
  unfold ingestJobVacancy at h
  cases h0 : env.heartbeat with
  | error e => rw [h0] at h; cases h
  | ok u =>
    rw [h0] at h
    cases h1 : ingestPDFToChromaDB env.jobDescription with
    | error e => rw [h1] at h; cases h
    | ok t1 =>
      rw [h1] at h
      cases h2 : ingestPDFToChromaDB env.cvRubric with
      | error e => rw [h2] at h; cases h
      | ok t2 =>
        rw [h2] at h
        cases h3 : ingestCaseStudyDocs env jobType with
        | error e => rw [h3] at h; cases h
        | ok texts =>
          rw [h3] at h
          obtain ⟨cs, pr⟩ := texts
          cases h4 : env.queries with
          | error e => rw [h4] at h; cases h
          | ok q =>
            rw [h4] at h
            cases h5 : env.cvStandardize with
            | error e => rw [h5] at h; cases h
            | ok w => exact ⟨⟨t1, rfl⟩, ⟨t2, rfl⟩, ⟨q, rfl⟩, ⟨w, rfl⟩⟩

/-- C3: the ingestion worker transitions a vacancy to `active` exactly when
the whole ingestion run (document extraction/chunking/indexing, query
generation, rubric standardization) succeeds; when any step throws, the
vacancy ends `failed` and its rubric and query fields keep their previous
values — no partial result is stored; and an `active` outcome certifies
that each attempted step succeeded. -/
theorem ingestion_status_atomicity (env : IngestEnv) (jobType : JobType)
    (rec : Vacancy) :
    ((processJobVacancyIngestionJob env jobType rec).1.status = VacancyStatus.active ↔
      ∃ r, ingestJobVacancy env jobType = Except.ok r)
    ∧ (∀ e, ingestJobVacancy env jobType = Except.error e →
        (processJobVacancyIngestionJob env jobType rec).1.status = VacancyStatus.failed
        ∧ (processJobVacancyIngestionJob env jobType rec).1.standardizedCvRubric =
            rec.standardizedCvRubric
        ∧ (processJobVacancyIngestionJob env jobType rec).1.standardizedProjectRubric =
            rec.standardizedProjectRubric
        ∧ (processJobVacancyIngestionJob env jobType rec).1.cvEvaluationQueries =
            rec.cvEvaluationQueries
        ∧ (processJobVacancyIngestionJob env jobType rec).1.projectEvaluationQueries =
            rec.projectEvaluationQueries)
    ∧ ((processJobVacancyIngestionJob env jobType rec).1.status = VacancyStatus.active →
        (∃ t, ingestPDFToChromaDB env.jobDescription = Except.ok t)
        ∧ (∃ t, ingestPDFToChromaDB env.cvRubric = Except.ok t)
        ∧ (∃ q, env.queries = Except.ok q)
        ∧ (∃ w, env.cvStandardize = Except.ok w)) := by
  cases h : ingestJobVacancy env jobType with
  | ok r =>
      refine ⟨?_, ?_, ?_⟩
      · simp [processJobVacancyIngestionJob, h]
      · intro e he
        cases he
      · intro _
        exact ingestJobVacancy_ok_steps h
  | error e =>
      refine ⟨?_, ?_, ?_⟩
      · simp [processJobVacancyIngestionJob, h]
      · intro e2 he2
        simp [processJobVacancyIngestionJob, h]
      · intro hactive
        simp [processJobVacancyIngestionJob, h] at hactive

/-- A per-document ingestion whose file exists, extracts nonempty text and
upserts successfully. -/
def docIngestOk : DocIngestEnv := ⟨true, Except.ok "document text", Except.ok ()⟩

/-- An ingestion environment in which every step succeeds. -/
def envIngestOk : IngestEnv :=
  ⟨Except.ok (), docIngestOk, docIngestOk, docIngestOk, docIngestOk, true, true,
    Except.ok ⟨["cv query"], some ["project query"]⟩,
    Except.ok standardCvWeights, Except.ok standardProjectWeights⟩

/-- An ingestion environment whose ChromaDB heartbeat fails. -/
def envIngestHeartbeatFail : IngestEnv :=
  ⟨Except.error "connection refused", docIngestOk, docIngestOk, docIngestOk,
    docIngestOk, true, true, Except.ok ⟨[], none⟩,
    Except.ok standardCvWeights, Except.ok standardProjectWeights⟩

/-- A freshly created vacancy record, before ingestion. -/
def pendingVacancyRec : Vacancy :=
  ⟨VacancyStatus.pending, JobType.cv_with_test, [], [], none, none⟩

/-- C3 witness: the atomicity theorem at a concrete failing run (heartbeat
error: status `failed`, fields unchanged) and at a concrete successful run
(status `active` certifies each step succeeded). -/
theorem ingestion_status_atomicity_witness :
    ((processJobVacancyIngestionJob envIngestHeartbeatFail JobType.cv_with_test
          pendingVacancyRec).1.status = VacancyStatus.failed
      ∧ (processJobVacancyIngestionJob envIngestHeartbeatFail JobType.cv_with_test
          pendingVacancyRec).1.standardizedCvRubric = pendingVacancyRec.standardizedCvRubric
      ∧ (processJobVacancyIngestionJob envIngestHeartbeatFail JobType.cv_with_test
          pendingVacancyRec).1.standardizedProjectRubric = pendingVacancyRec.standardizedProjectRubric
      ∧ (processJobVacancyIngestionJob envIngestHeartbeatFail JobType.cv_with_test
          pendingVacancyRec).1.cvEvaluationQueries = pendingVacancyRec.cvEvaluationQueries
      ∧ (processJobVacancyIngestionJob envIngestHeartbeatFail JobType.cv_with_test
          pendingVacancyRec).1.projectEvaluationQueries = pendingVacancyRec.projectEvaluationQueries)
    ∧ ((∃ t, ingestPDFToChromaDB envIngestOk.jobDescription = Except.ok t)
      ∧ (∃ t, ingestPDFToChromaDB envIngestOk.cvRubric = Except.ok t)
      ∧ (∃ q, envIngestOk.queries = Except.ok q)
      ∧ (∃ w, envIngestOk.cvStandardize = Except.ok w)) := by
  constructor
  · exact (ingestion_status_atomicity envIngestHeartbeatFail JobType.cv_with_test
      pendingVacancyRec).2.1 ("Failed to connect to ChromaDB: " ++ "connection refused") rfl
  · exact (ingestion_status_atomicity envIngestOk JobType.cv_with_test
      pendingVacancyRec).2.2 rfl
